import Mathlib

/-!
Verification of the request-governance layer of a Pardot API client
(`tap_pardot/client.py`): daily quota accounting, session lifecycle with
one-shot re-authentication, and the retry/backoff classification.

The Python source is shallowly embedded: HTTP responses are values, the
redis counter and the session fields are an explicit `ClientState`, each
transport request issued is recorded in an event trace, and Python
exceptions become an error sum type threaded through `Except`.
-/

namespace TapPardot

/-- The three exception classes defined by the source
(`Pardot5xxError`, `PardotException`, `PardotUserLimitReached`).
`PardotException.code` is obtained in the source via
`response_content.get("@attributes", {}).get("err_code")`, hence `Option Int`. -/
inductive PardotExc where
  | pardot5xxError : PardotExc
  | pardotException (code : Option Int) : PardotExc
  | pardotUserLimitReached : PardotExc
  deriving DecidableEq, Repr

/-- Everything the embedded client can raise: the three Pardot exception
classes, `requests.HTTPError` from `raise_for_status` (carrying the status),
and Python `KeyError` from a `[...]` dictionary access (carrying the key). -/
inductive Err where
  | pardot (e : PardotExc)
  | httpStatus (s : Nat)
  | keyError (k : String)
  deriving DecidableEq, Repr

/-- `is_not_retryable_pardot_exception` from the source, the `giveup`
predicate of the backoff wrappers: `Pardot5xxError` is retryable,
`PardotUserLimitReached` is never retryable, a `PardotException` is
retryable exactly when its embedded code is 66. -/
def is_not_retryable_pardot_exception : PardotExc → Bool
  | .pardot5xxError => false
  | .pardotUserLimitReached => true
  | .pardotException code => if code = some 66 then false else true

/-- The JSON body of a response, restricted to the fields the client reads:
`err` (an optional string; Python truthiness), `@attributes.err_code`
(read with `[...]`, so a missing value is a `KeyError`), `api_key` (read
with `[...]` in `login`) and `version` (read with `.get`). -/
structure Body where
  err : Option String
  errCode : Option Int
  apiKey : Option String
  version : Option String
  deriving DecidableEq, Repr

/-- Python truthiness of `content.get("err")`: absent or empty string is
falsy, any other string is truthy. -/
def errTruthy (b : Body) : Bool :=
  match b.err with
  | none => false
  | some s => s ≠ ""

/-- An HTTP response: status code plus parsed JSON body. -/
structure Response where
  status : Nat
  body : Body
  deriving DecidableEq, Repr

/-- Mutable client state: the redis counter at the client's key, and the
session fields `api_key` / `api_version` (class attributes initialised to
`None` in the source, hence `Option`). -/
structure ClientState where
  count : Nat
  apiKey : Option String
  apiVersion : Option String
  deriving DecidableEq, Repr

/-- One observable transport call: a data request
(`requests.request(method, url, params=params)`) or the authentication
`POST` issued by `login`. -/
inductive Event where
  | dataReq (method url : String) (params : List (String × String))
  | authReq
  deriving DecidableEq, Repr

def AUTH_URL : String := "https://pi.pardot.com/api/login/version/3"

def ENDPOINT_BASE : String := "https://pi.pardot.com/api/"

/-- The guard `self.api_calls_limit and num_api_calls_made < self.api_calls_limit`
of `_make_request`: an absent (`None`) or zero limit is falsy, otherwise the
counter must be strictly below the limit. -/
def limitAllows : Option Nat → Nat → Bool
  | none, _ => false
  | some l, num => if l = 0 then false else decide (num < l)

/-- `content.get("version") or "3"`: a missing or empty (falsy) version
defaults to `"3"`. -/
def versionOrDefault (v : Option String) : String :=
  match v with
  | none => "3"
  | some s => if s = "" then "3" else s

/-- `str(self.api_version)` as interpolated into a URL template; the source
would render the Python literal `None` if the field were unset. -/
def optStr (v : Option String) : String :=
  match v with
  | none => "None"
  | some s => s

/-- `Client._check_error`: if the body's `err` is truthy, read
`content["@attributes"]["err_code"]` (a `KeyError` if absent) and raise
`PardotException` carrying that code. -/
def check_error (content : Body) : Except Err Unit :=
  if errTruthy content then
    match content.errCode with
    | none => .error (.keyError "err_code")
    | some c => .error (.pardot (.pardotException (some c)))
  else .ok ()

/-- `Client.login`, applied to the authentication response it receives:
`raise_for_status` (HTTP error for 4xx/5xx), then `_check_error`, then
`redis.incr`, then `self.api_version` is assigned, then
`self.api_key = content["api_key"]` — in that order, so a 2xx error-free
body lacking `api_key` raises `KeyError` after the counter and
`api_version` were already updated. Returns the outcome together with the
state as mutated so far. -/
def login (st : ClientState) (r : Response) : Except Err Unit × ClientState :=
  if 400 ≤ r.status ∧ r.status < 600 then (.error (.httpStatus r.status), st)
  else
    let content := r.body
    match check_error content with
    | .error e => (.error e, st)
    | .ok _ =>
      let st1 : ClientState := { st with count := st.count + 1 }
      let st2 : ClientState := { st1 with apiVersion := some (versionOrDefault content.version) }
      match content.apiKey with
      | none => (.error (.keyError "api_key"), st2)
      | some k => (.ok (), { st2 with apiKey := some k })

/-- `Client._make_request`. The transport is an oracle: `resp1` is the
response to the first data request, `authResp` the response `login` would
receive, `resp2` the response to the retried data request; each is consumed
only if the corresponding request is actually issued, and every issued
request is recorded in the returned trace.

Control flow from the source: read the counter; if the limit guard fails,
raise `PardotUserLimitReached` with no transport call. Otherwise issue the
request; status ≥ 500 raises `Pardot5xxError`, other non-2xx raise via
`raise_for_status`. On a truthy `err` body, read `err_code` (`KeyError` if
absent); code 1 triggers one `login()` and one retry with the same method,
url and params, whose JSON body is returned after `redis.incr` — the
subsequent `if error_code == 122` still sees the stale code 1, and the
retried body is returned without any status or error check. Code 122 on
the first response raises `PardotUserLimitReached` without incrementing.
Any other embedded code returns the error body unchanged (the callers run
`_check_error` on it). An error-free body increments the counter and is
returned. -/
def make_request (limit : Option Nat) (st : ClientState) (method url : String)
    (params : List (String × String)) (resp1 authResp resp2 : Response) :
    Except Err Body × ClientState × List Event :=
  if limitAllows limit st.count then
    let tr1 : List Event := [.dataReq method url params]
    if 500 ≤ resp1.status then (.error (.pardot .pardot5xxError), st, tr1)
    else if 400 ≤ resp1.status then (.error (.httpStatus resp1.status), st, tr1)
    else
      let content := resp1.body
      if errTruthy content then
        match content.errCode with
        | none => (.error (.keyError "err_code"), st, tr1)
        | some code =>
          if code = 1 then
            match login st authResp with
            | (.error e, st') => (.error e, st', tr1 ++ [.authReq])
            | (.ok _, st') =>
              let content2 := resp2.body
              let st'' : ClientState := { st' with count := st'.count + 1 }
              (.ok content2, st'', tr1 ++ [.authReq, .dataReq method url params])
          else if code = 122 then (.error (.pardot .pardotUserLimitReached), st, tr1)
          else (.ok content, st, tr1)
      else (.ok content, { st with count := st.count + 1 }, tr1)
  else (.error (.pardot .pardotUserLimitReached), st, [])

/-- Python-dict update on an association list: assign to an existing key in
place, otherwise append. Keys built this way stay unique. -/
def dictInsert : List (String × String) → String → String → List (String × String)
  | [], k, v => [(k, v)]
  | (k0, v0) :: rest, k, v =>
      if k0 = k then (k0, v) :: rest else (k0, v0) :: dictInsert rest k v

/-- Lookup in an association list built by `dictInsert` (first match). -/
def dictGet : List (String × String) → String → Option String
  | [], _ => none
  | (k0, v0) :: rest, k => if k0 = k then some v0 else dictGet rest k

/-- `{"format": "json", "output": "bulk", **kwargs}` from `describe` and
`_fetch`: the two defaults, then each caller-supplied keyword argument in
order, later assignments overriding (so a caller-supplied `format` or
`output` replaces the default). -/
def mergeKwargs (kwargs : List (String × String)) : List (String × String) :=
  kwargs.foldl (fun d kv => dictInsert d kv.1 kv.2)
    [("format", "json"), ("output", "bulk")]

/-- The URL built by `describe`:
`(ENDPOINT_BASE + "{}/version/{}/do/describe").format(endpoint, api_version)`. -/
def describeUrlFor (apiVersion : Option String) (endpoint : String) : String :=
  ENDPOINT_BASE ++ endpoint ++ "/version/" ++ optStr apiVersion ++ "/do/describe"

/-- The URL built by `_fetch`: `get_url` has exactly two placeholders, so
`str.format` ignores any extra `format_params` the source appends to the
argument list. -/
def fetchUrlFor (apiVersion : Option String) (endpoint : String) : String :=
  ENDPOINT_BASE ++ endpoint ++ "/version/" ++ optStr apiVersion ++ "/do/query"

/-- `Client.describe` (one attempt, inside the backoff wrapper): build the
URL from the current `api_version`, merge the default query parameters
with the caller's keyword filters, call `_make_request`, then run
`_check_error` on the returned body and hand the payload to the caller. -/
def describe (limit : Option Nat) (st : ClientState) (endpoint : String)
    (kwargs : List (String × String)) (resp1 authResp resp2 : Response) :
    Except Err Body × ClientState × List Event :=
  let url := describeUrlFor st.apiVersion endpoint
  let params := mergeKwargs kwargs
  match make_request limit st "get" url params resp1 authResp resp2 with
  | (.error e, st', tr) => (.error e, st', tr)
  | (.ok content, st', tr) =>
    match check_error content with
    | .error e => (.error e, st', tr)
    | .ok _ => (.ok content, st', tr)

/-- `Client._fetch` (one attempt, inside the backoff wrapper); `get` and
`post` delegate here with methods `"get"` and `"post"`. -/
def fetchEndpoint (limit : Option Nat) (st : ClientState) (method endpoint : String)
    (kwargs : List (String × String)) (resp1 authResp resp2 : Response) :
    Except Err Body × ClientState × List Event :=
  let url := fetchUrlFor st.apiVersion endpoint
  let params := mergeKwargs kwargs
  match make_request limit st method url params resp1 authResp resp2 with
  | (.error e, st', tr) => (.error e, st', tr)
  | (.ok content, st', tr) =>
    match check_error content with
    | .error e => (.error e, st', tr)
    | .ok _ => (.ok content, st', tr)

/-- The pre-login limit check of `__init__`:
`if self.api_calls_limit and num_api_calls_made >= self.api_calls_limit`. -/
def initGuardTrips (limit : Option Nat) (num : Nat) : Bool :=
  match limit with
  | none => false
  | some l => if l = 0 then false else decide (l ≤ num)

/-- `Client.__init__` after reading the config: read the counter
(`storedCount = None` models an absent key, initialised to 0), raise
`PardotUserLimitReached` when `initGuardTrips` fires, otherwise run the
first `login`. No data request is ever issued during construction. -/
def clientInit (limit : Option Nat) (storedCount : Option Nat) (authResp : Response) :
    Except Err ClientState × List Event :=
  let num := storedCount.getD 0
  if initGuardTrips limit num then
    (.error (.pardot .pardotUserLimitReached), [])
  else
    match login { count := num, apiKey := none, apiVersion := none } authResp with
    | (.ok _, st') => (.ok st', [.authReq])
    | (.error e, _) => (.error e, [.authReq])

/-- The backoff wrapper on `describe` and `_fetch` is
`backoff.on_exception(expo, (PardotException, Pardot5xxError),
giveup=is_not_retryable_pardot_exception)`: an escaping exception causes a
backoff-retry exactly when it is one of the two caught classes and the
giveup predicate rejects it; every other exception (including
`PardotUserLimitReached`, which is not in the caught tuple) propagates. -/
def backoffRetries : Err → Bool
  | .pardot .pardot5xxError => !is_not_retryable_pardot_exception .pardot5xxError
  | .pardot (.pardotException c) => !is_not_retryable_pardot_exception (.pardotException c)
  | _ => false

/-! ### Concrete fixtures used by witnesses and counterexamples -/

/-- A successful data/auth body: no embedded error, fresh key, version 4. -/
def bodyOk : Body :=
  { err := none, errCode := none, apiKey := some "newkey", version := some "4" }

/-- An embedded error-code-1 body (expired api_key / user_key). -/
def bodyErr1 : Body :=
  { err := some "Invalid API key or user key", errCode := some 1, apiKey := none, version := none }

/-- An embedded error-code-122 body (server-side daily limit). -/
def bodyErr122 : Body :=
  { err := some "Daily API rate limit met", errCode := some 122, apiKey := none, version := none }

/-- An embedded error-code-15 body (invalid credentials at login). -/
def bodyErr15 : Body :=
  { err := some "Invalid credentials", errCode := some 15, apiKey := none, version := none }

/-- A 2xx, error-free body that carries no `api_key` field. -/
def bodyNoKey : Body :=
  { err := none, errCode := none, apiKey := none, version := some "4" }

/-- A successful authentication response. -/
def respAuthOk : Response := { status := 200, body := bodyOk }

/-! ### Helper lemmas -/

theorem dictGet_dictInsert_self (d : List (String × String)) (k v : String) :
    dictGet (dictInsert d k v) k = some v := by
  induction d with
  | nil => simp [dictInsert, dictGet]
  | cons hd tl ih =>
    obtain ⟨k0, v0⟩ := hd
    by_cases h : k0 = k
    · simp [dictInsert, dictGet, h]
    · simp [dictInsert, dictGet, h, ih]

theorem dictGet_dictInsert_ne (d : List (String × String)) {k' k : String} (v : String)
    (h : k' ≠ k) : dictGet (dictInsert d k v) k' = dictGet d k' := by
  induction d with
  | nil => simp [dictInsert, dictGet, Ne.symm h]
  | cons hd tl ih =>
    obtain ⟨k0, v0⟩ := hd
    by_cases h0 : k0 = k
    · subst h0
      simp [dictInsert, dictGet, Ne.symm h]
    · simp [dictInsert, dictGet, h0, ih]

theorem dictGet_foldl_not_mem (l : List (String × String)) :
    ∀ (d : List (String × String)) (k : String), k ∉ l.map Prod.fst →
      dictGet (l.foldl (fun d kv => dictInsert d kv.1 kv.2) d) k = dictGet d k := by
  induction l with
  | nil => intro d k _; rfl
  | cons hd tl ih =>
    intro d k h
    rw [List.map_cons, List.mem_cons] at h
    push_neg at h
    rw [List.foldl_cons, ih _ _ h.2, dictGet_dictInsert_ne _ hd.2 h.1]

theorem dictGet_foldl_mem (l : List (String × String)) :
    ∀ (d : List (String × String)) (kv : String × String),
      (l.map Prod.fst).Nodup → kv ∈ l →
      dictGet (l.foldl (fun d kv => dictInsert d kv.1 kv.2) d) kv.1 = some kv.2 := by
  induction l with
  | nil => intro d kv _ hm; cases hm
  | cons hd tl ih =>
    intro d kv hnd hm
    rw [List.map_cons, List.nodup_cons] at hnd
    rcases List.mem_cons.mp hm with rfl | hm'
    · rw [List.foldl_cons, dictGet_foldl_not_mem tl _ _ hnd.1, dictGet_dictInsert_self]
    · rw [List.foldl_cons]
      exact ih _ _ hnd.2 hm'

theorem login_ok {st : ClientState} {authResp : Response} {k : String}
    (hAs : authResp.status < 400) (hAe : errTruthy authResp.body = false)
    (hAk : authResp.body.apiKey = some k) :
    login st authResp = (.ok (),
      { count := st.count + 1, apiKey := some k,
        apiVersion := some (versionOrDefault authResp.body.version) }) := by
  have h : ¬(400 ≤ authResp.status ∧ authResp.status < 600) := by omega
  simp [login, check_error, h, hAe, hAk]

/-- The code-1 recovery path of `_make_request`: when the first response is
2xx with embedded error code 1 and the re-login succeeds, the executor
issues exactly one authentication request and one retry identical to the
original request, returns the retried body unconditionally, and leaves the
counter at `count + 2` (one increment from `login`, one after the retry). -/
theorem make_request_reauth {limit : Option Nat} {st : ClientState}
    {method url : String} {params : List (String × String)}
    {resp1 authResp resp2 : Response} {k : String}
    (hLim : limitAllows limit st.count = true)
    (h1s : resp1.status < 400) (h1e : errTruthy resp1.body = true)
    (h1c : resp1.body.errCode = some 1)
    (hAs : authResp.status < 400) (hAe : errTruthy authResp.body = false)
    (hAk : authResp.body.apiKey = some k) :
    make_request limit st method url params resp1 authResp resp2 =
      (.ok resp2.body,
       { count := st.count + 2, apiKey := some k,
         apiVersion := some (versionOrDefault authResp.body.version) },
       [.dataReq method url params, .authReq, .dataReq method url params]) := by
  have h5 : ¬(500 ≤ resp1.status) := by omega
  have h4 : ¬(400 ≤ resp1.status) := by omega
  simp [make_request, hLim, h5, h4, h1e, h1c, login_ok hAs hAe hAk]

/-- Whenever the quota guard lets `_make_request` proceed, the first
recorded transport call is the data request with exactly the given method,
url and params. -/
theorem make_request_first_event {limit : Option Nat} {st : ClientState}
    {method url : String} {params : List (String × String)}
    {resp1 authResp resp2 : Response}
    (hLim : limitAllows limit st.count = true) :
    (make_request limit st method url params resp1 authResp resp2).2.2.head? =
      some (.dataReq method url params) := by
  unfold make_request
  rw [if_pos hLim]
  dsimp only
  split
  · rfl
  · split
    · rfl
    · split
      · split
        · rfl
        · split
          · split
            · rfl
            · rfl
          · split
            · rfl
            · rfl
      · rfl

/-- `describe` passes the trace of its `_make_request` call through
unchanged, whatever the outcome. -/
theorem describe_trace (limit : Option Nat) (st : ClientState) (endpoint : String)
    (kwargs : List (String × String)) (resp1 authResp resp2 : Response) :
    (describe limit st endpoint kwargs resp1 authResp resp2).2.2 =
      (make_request limit st "get" (describeUrlFor st.apiVersion endpoint)
        (mergeKwargs kwargs) resp1 authResp resp2).2.2 := by
  simp only [describe]
  rcases hmk : make_request limit st "get" (describeUrlFor st.apiVersion endpoint)
      (mergeKwargs kwargs) resp1 authResp resp2 with ⟨res, st', tr⟩
  cases res with
  | error e => rfl
  | ok content =>
    cases hce : check_error content with
    | error e => simp [hce]
    | ok u => simp [hce]

/-- `_fetch` passes the trace of its `_make_request` call through
unchanged, whatever the outcome. -/
theorem fetchEndpoint_trace (limit : Option Nat) (st : ClientState)
    (method endpoint : String) (kwargs : List (String × String))
    (resp1 authResp resp2 : Response) :
    (fetchEndpoint limit st method endpoint kwargs resp1 authResp resp2).2.2 =
      (make_request limit st method (fetchUrlFor st.apiVersion endpoint)
        (mergeKwargs kwargs) resp1 authResp resp2).2.2 := by
  simp only [fetchEndpoint]
  rcases hmk : make_request limit st method (fetchUrlFor st.apiVersion endpoint)
      (mergeKwargs kwargs) resp1 authResp resp2 with ⟨res, st', tr⟩
  cases res with
  | error e => rfl
  | ok content =>
    cases hce : check_error content with
    | error e => simp [hce]
    | ok u => simp [hce]

/-! ### Claims -/

/-- Claim C6: `is_not_retryable_pardot_exception` classifies a 5xx server
error as retryable, the quota-exhausted exception as never retryable, an
API exception with embedded error code 66 (the concurrency-limit code) as
retryable, and every other API exception as not retryable. -/
theorem c6_retry_eligibility :
    is_not_retryable_pardot_exception .pardot5xxError = false ∧
    is_not_retryable_pardot_exception .pardotUserLimitReached = true ∧
    is_not_retryable_pardot_exception (.pardotException (some 66)) = false ∧
    ∀ c : Option Int, c ≠ some 66 →
      is_not_retryable_pardot_exception (.pardotException c) = true := by
  refine ⟨rfl, rfl, rfl, ?_⟩
  intro c hc
  simp [is_not_retryable_pardot_exception, hc]

/-- Witness for C6 at embedded error code 15. -/
theorem c6_retry_eligibility_witness :
    is_not_retryable_pardot_exception (.pardotException (some 15)) = true :=
  c6_retry_eligibility.2.2.2 (some 15) (by decide)

/-- Claim C2: with a configured daily limit and the stored count at or
above it, `_make_request` fails with `PardotUserLimitReached`, leaves the
state untouched and issues no transport request (empty trace). -/
theorem c2_quota_guard_blocks {l : Nat} {st : ClientState} {method url : String}
    {params : List (String × String)} {resp1 authResp resp2 : Response}
    (h : l ≤ st.count) :
    make_request (some l) st method url params resp1 authResp resp2 =
      (.error (.pardot .pardotUserLimitReached), st, []) := by
  have hL : limitAllows (some l) st.count = false := by
    simp only [limitAllows]
    split
    · rfl
    · simp only [decide_eq_false_iff_not]
      omega
  simp [make_request, hL]

/-- Witness for C2: limit 5 with 5 calls already made. -/
theorem c2_quota_guard_blocks_witness :
    make_request (some 5) ⟨5, some "key", some "3"⟩ "get" "u" []
        ⟨200, bodyOk⟩ respAuthOk ⟨200, bodyOk⟩ =
      (.error (.pardot .pardotUserLimitReached), ⟨5, some "key", some "3"⟩, []) :=
  c2_quota_guard_blocks (by decide)

/-- Claim C3: with the daily limit absent or falsy in the config, every
`_make_request` — and hence every describe and fetch attempt — raises
`PardotUserLimitReached` without contacting the remote endpoint. -/
theorem c3_absent_limit_blocks_everything {limit : Option Nat} {st : ClientState}
    {method url endpoint : String} {params kwargs : List (String × String)}
    {resp1 authResp resp2 : Response}
    (h : limit = none ∨ limit = some 0) :
    make_request limit st method url params resp1 authResp resp2 =
      (.error (.pardot .pardotUserLimitReached), st, []) ∧
    describe limit st endpoint kwargs resp1 authResp resp2 =
      (.error (.pardot .pardotUserLimitReached), st, []) ∧
    fetchEndpoint limit st method endpoint kwargs resp1 authResp resp2 =
      (.error (.pardot .pardotUserLimitReached), st, []) := by
  have hL : limitAllows limit st.count = false := by
    rcases h with rfl | rfl <;> simp [limitAllows]
  have hmr : ∀ (m u : String) (p : List (String × String)),
      make_request limit st m u p resp1 authResp resp2 =
        (.error (.pardot .pardotUserLimitReached), st, []) := by
    intro m u p
    simp [make_request, hL]
  refine ⟨hmr _ _ _, ?_, ?_⟩
  · simp [describe, hmr]
  · simp [fetchEndpoint, hmr]

/-- Witness for C3: no configured limit; a 200 response is never fetched. -/
theorem c3_absent_limit_blocks_everything_witness :
    make_request none ⟨0, none, none⟩ "get" "u" []
        ⟨200, bodyOk⟩ respAuthOk ⟨200, bodyOk⟩ =
      (.error (.pardot .pardotUserLimitReached), ⟨0, none, none⟩, []) ∧
    describe none ⟨0, none, none⟩ "prospect" []
        ⟨200, bodyOk⟩ respAuthOk ⟨200, bodyOk⟩ =
      (.error (.pardot .pardotUserLimitReached), ⟨0, none, none⟩, []) ∧
    fetchEndpoint none ⟨0, none, none⟩ "get" "prospect" []
        ⟨200, bodyOk⟩ respAuthOk ⟨200, bodyOk⟩ =
      (.error (.pardot .pardotUserLimitReached), ⟨0, none, none⟩, []) :=
  c3_absent_limit_blocks_everything (Or.inl rfl)

/-- Claim C1: a first response with embedded error code 1 triggers exactly
one re-login followed by exactly one retry of the identical request (same
method, url, params) — visible in the trace as one data request, one
authentication request, then one data request equal to the first — on both
the describe and the fetch path; and when the retried response again
carries code 1, the logical call surfaces `PardotException` with code 1 to
the caller and the backoff wrapper does not retry it, so no second
re-login and no loop occur. -/
theorem c1_reauth_once_then_surface {limit : Option Nat} {st : ClientState}
    {endpoint method : String} {kwargs : List (String × String)}
    {resp1 authResp resp2 : Response} {k : String}
    (hLim : limitAllows limit st.count = true)
    (h1s : resp1.status < 400) (h1e : errTruthy resp1.body = true)
    (h1c : resp1.body.errCode = some 1)
    (hAs : authResp.status < 400) (hAe : errTruthy authResp.body = false)
    (hAk : authResp.body.apiKey = some k)
    (h2e : errTruthy resp2.body = true) (h2c : resp2.body.errCode = some 1) :
    ((describe limit st endpoint kwargs resp1 authResp resp2).1 =
        .error (.pardot (.pardotException (some 1))) ∧
      (describe limit st endpoint kwargs resp1 authResp resp2).2.2 =
        [.dataReq "get" (describeUrlFor st.apiVersion endpoint) (mergeKwargs kwargs),
         .authReq,
         .dataReq "get" (describeUrlFor st.apiVersion endpoint) (mergeKwargs kwargs)]) ∧
    ((fetchEndpoint limit st method endpoint kwargs resp1 authResp resp2).1 =
        .error (.pardot (.pardotException (some 1))) ∧
      (fetchEndpoint limit st method endpoint kwargs resp1 authResp resp2).2.2 =
        [.dataReq method (fetchUrlFor st.apiVersion endpoint) (mergeKwargs kwargs),
         .authReq,
         .dataReq method (fetchUrlFor st.apiVersion endpoint) (mergeKwargs kwargs)]) ∧
    backoffRetries (.pardot (.pardotException (some 1))) = false := by
  refine ⟨⟨?_, ?_⟩, ⟨?_, ?_⟩, rfl⟩ <;>
    simp [describe, fetchEndpoint, check_error, h2e, h2c,
      make_request_reauth hLim h1s h1e h1c hAs hAe hAk]

/-- Witness for C1: probe and retry both answer code 1; one re-login, two
identical data requests, surfaced `PardotException(1)`, no backoff retry. -/
theorem c1_reauth_once_then_surface_witness :
    ((describe (some 10) ⟨2, some "oldkey", some "3"⟩ "prospect" [("x", "y")]
          ⟨200, bodyErr1⟩ respAuthOk ⟨200, bodyErr1⟩).1 =
        .error (.pardot (.pardotException (some 1))) ∧
      (describe (some 10) ⟨2, some "oldkey", some "3"⟩ "prospect" [("x", "y")]
          ⟨200, bodyErr1⟩ respAuthOk ⟨200, bodyErr1⟩).2.2 =
        [.dataReq "get" (describeUrlFor (some "3") "prospect") (mergeKwargs [("x", "y")]),
         .authReq,
         .dataReq "get" (describeUrlFor (some "3") "prospect") (mergeKwargs [("x", "y")])]) ∧
    ((fetchEndpoint (some 10) ⟨2, some "oldkey", some "3"⟩ "post" "prospect" [("x", "y")]
          ⟨200, bodyErr1⟩ respAuthOk ⟨200, bodyErr1⟩).1 =
        .error (.pardot (.pardotException (some 1))) ∧
      (fetchEndpoint (some 10) ⟨2, some "oldkey", some "3"⟩ "post" "prospect" [("x", "y")]
          ⟨200, bodyErr1⟩ respAuthOk ⟨200, bodyErr1⟩).2.2 =
        [.dataReq "post" (fetchUrlFor (some "3") "prospect") (mergeKwargs [("x", "y")]),
         .authReq,
         .dataReq "post" (fetchUrlFor (some "3") "prospect") (mergeKwargs [("x", "y")])]) ∧
    backoffRetries (.pardot (.pardotException (some 1))) = false :=
  c1_reauth_once_then_surface (k := "newkey") (by decide) (by decide) (by decide)
    (by decide) (by decide) (by decide) (by decide) (by decide) (by decide)

/-- Claim C4 counterexample: a describe whose code-1 probe is followed by
a successful retry increments the counter by 2 (from 0 to 2), not by
exactly 1 — `login` increments once and the retry increments again. -/
theorem c4_counterexample :
    (describe (some 10) ⟨0, some "oldkey", some "3"⟩ "prospect" []
        ⟨200, bodyErr1⟩ respAuthOk ⟨200, bodyOk⟩).1 = .ok bodyOk ∧
    (describe (some 10) ⟨0, some "oldkey", some "3"⟩ "prospect" []
        ⟨200, bodyErr1⟩ respAuthOk ⟨200, bodyOk⟩).2.1.count = 2 ∧
    (2 : Nat) ≠ 0 + 1 :=
  ⟨rfl, rfl, by decide⟩

/-- Claim C4 (amended): a describe — or a fetch, so a get or post — whose
first response carries code 1 and whose retried request succeeds delivers
the retried payload to the caller, and the counter rises by exactly two —
one increment from the re-login call itself, one after the retried
request; the failed probe contributes no increment. -/
theorem c4_reauth_success_payload {limit : Option Nat} {st : ClientState}
    {endpoint method : String} {kwargs : List (String × String)}
    {resp1 authResp resp2 : Response} {k : String}
    (hLim : limitAllows limit st.count = true)
    (h1s : resp1.status < 400) (h1e : errTruthy resp1.body = true)
    (h1c : resp1.body.errCode = some 1)
    (hAs : authResp.status < 400) (hAe : errTruthy authResp.body = false)
    (hAk : authResp.body.apiKey = some k)
    (h2e : errTruthy resp2.body = false) :
    describe limit st endpoint kwargs resp1 authResp resp2 =
      (.ok resp2.body,
       { count := st.count + 2, apiKey := some k,
         apiVersion := some (versionOrDefault authResp.body.version) },
       [.dataReq "get" (describeUrlFor st.apiVersion endpoint) (mergeKwargs kwargs),
        .authReq,
        .dataReq "get" (describeUrlFor st.apiVersion endpoint) (mergeKwargs kwargs)]) ∧
    fetchEndpoint limit st method endpoint kwargs resp1 authResp resp2 =
      (.ok resp2.body,
       { count := st.count + 2, apiKey := some k,
         apiVersion := some (versionOrDefault authResp.body.version) },
       [.dataReq method (fetchUrlFor st.apiVersion endpoint) (mergeKwargs kwargs),
        .authReq,
        .dataReq method (fetchUrlFor st.apiVersion endpoint) (mergeKwargs kwargs)]) := by
  constructor <;>
    simp [describe, fetchEndpoint, check_error, h2e,
      make_request_reauth hLim h1s h1e h1c hAs hAe hAk]

/-- Witness for the amended C4, on the describe and the post path. -/
theorem c4_reauth_success_payload_witness :
    (describe (some 10) ⟨0, some "oldkey", some "3"⟩ "prospect" []
        ⟨200, bodyErr1⟩ respAuthOk ⟨200, bodyOk⟩ =
      (.ok bodyOk,
       { count := 2, apiKey := some "newkey", apiVersion := some "4" },
       [.dataReq "get" (describeUrlFor (some "3") "prospect") (mergeKwargs []),
        .authReq,
        .dataReq "get" (describeUrlFor (some "3") "prospect") (mergeKwargs [])])) ∧
    fetchEndpoint (some 10) ⟨0, some "oldkey", some "3"⟩ "post" "prospect" []
        ⟨200, bodyErr1⟩ respAuthOk ⟨200, bodyOk⟩ =
      (.ok bodyOk,
       { count := 2, apiKey := some "newkey", apiVersion := some "4" },
       [.dataReq "post" (fetchUrlFor (some "3") "prospect") (mergeKwargs []),
        .authReq,
        .dataReq "post" (fetchUrlFor (some "3") "prospect") (mergeKwargs [])]) :=
  c4_reauth_success_payload (by decide) (by decide) (by decide) (by decide)
    (by decide) (by decide) (by decide) (by decide)

/-- Claim C5 counterexample: a call recovered via re-authentication moves
the counter from 3 to 5 — an increase of two, not of exactly one. -/
theorem c5_counterexample :
    (make_request (some 10) ⟨3, some "stale", some "3"⟩ "get" "u" []
        ⟨200, bodyErr1⟩ respAuthOk ⟨200, bodyOk⟩).2.1.count = 5 ∧
    (5 : Nat) ≠ 3 + 1 :=
  ⟨rfl, by decide⟩

/-- Claim C5 (amended): counter effects of the request executor — plus one
on a plain success; plus two when code 1 triggers a successful re-login
(one increment from the login call, one after the retry, whatever the
retried body holds); unchanged when the local quota guard fails, on a 5xx,
on another non-2xx status, on a first-response embedded client error with
a code other than 1 and 122, and on a first-response embedded code 122. -/
theorem c5_counter_effects {limit : Option Nat} {st : ClientState}
    {method url : String} {params : List (String × String)}
    {resp1 authResp resp2 : Response} {k : String} {c : Int} :
    (limitAllows limit st.count = true → resp1.status < 400 →
      errTruthy resp1.body = false →
      make_request limit st method url params resp1 authResp resp2 =
        (.ok resp1.body, { st with count := st.count + 1 },
         [.dataReq method url params])) ∧
    (limitAllows limit st.count = true → resp1.status < 400 →
      errTruthy resp1.body = true → resp1.body.errCode = some 1 →
      authResp.status < 400 → errTruthy authResp.body = false →
      authResp.body.apiKey = some k →
      (make_request limit st method url params resp1 authResp resp2).2.1.count =
        st.count + 2) ∧
    (limitAllows limit st.count = false →
      make_request limit st method url params resp1 authResp resp2 =
        (.error (.pardot .pardotUserLimitReached), st, [])) ∧
    (limitAllows limit st.count = true → 500 ≤ resp1.status →
      make_request limit st method url params resp1 authResp resp2 =
        (.error (.pardot .pardot5xxError), st, [.dataReq method url params])) ∧
    (limitAllows limit st.count = true → 400 ≤ resp1.status → resp1.status < 500 →
      make_request limit st method url params resp1 authResp resp2 =
        (.error (.httpStatus resp1.status), st, [.dataReq method url params])) ∧
    (limitAllows limit st.count = true → resp1.status < 400 →
      errTruthy resp1.body = true → resp1.body.errCode = some c →
      c ≠ 1 → c ≠ 122 →
      make_request limit st method url params resp1 authResp resp2 =
        (.ok resp1.body, st, [.dataReq method url params])) ∧
    (limitAllows limit st.count = true → resp1.status < 400 →
      errTruthy resp1.body = true → resp1.body.errCode = some 122 →
      make_request limit st method url params resp1 authResp resp2 =
        (.error (.pardot .pardotUserLimitReached), st, [.dataReq method url params])) := by
  refine ⟨?_, ?_, ?_, ?_, ?_, ?_, ?_⟩
  · intro hLim h1s h1e
    have h5 : ¬(500 ≤ resp1.status) := by omega
    have h4 : ¬(400 ≤ resp1.status) := by omega
    simp [make_request, hLim, h5, h4, h1e]
  · intro hLim h1s h1e h1c hAs hAe hAk
    rw [make_request_reauth hLim h1s h1e h1c hAs hAe hAk]
  · intro hLim
    simp [make_request, hLim]
  · intro hLim h5
    simp [make_request, hLim, h5]
  · intro hLim h4 h5'
    have h5 : ¬(500 ≤ resp1.status) := by omega
    simp [make_request, hLim, h5, h4]
  · intro hLim h1s h1e h1c hc1 hc122
    have h5 : ¬(500 ≤ resp1.status) := by omega
    have h4 : ¬(400 ≤ resp1.status) := by omega
    simp [make_request, hLim, h5, h4, h1e, h1c, hc1, hc122]
  · intro hLim h1s h1e h1c
    have h5 : ¬(500 ≤ resp1.status) := by omega
    have h4 : ¬(400 ≤ resp1.status) := by omega
    simp [make_request, hLim, h5, h4, h1e, h1c]

/-- Witness for the amended C5, one concrete run per counter effect. -/
theorem c5_counter_effects_witness :
    make_request (some 10) ⟨4, some "key", some "3"⟩ "get" "u" []
        ⟨200, bodyOk⟩ respAuthOk ⟨200, bodyOk⟩ =
      (.ok bodyOk, ⟨5, some "key", some "3"⟩, [.dataReq "get" "u" []]) ∧
    (make_request (some 10) ⟨4, some "key", some "3"⟩ "get" "u" []
        ⟨200, bodyErr1⟩ respAuthOk ⟨200, bodyErr122⟩).2.1.count = 6 ∧
    make_request (some 4) ⟨4, some "key", some "3"⟩ "get" "u" []
        ⟨200, bodyOk⟩ respAuthOk ⟨200, bodyOk⟩ =
      (.error (.pardot .pardotUserLimitReached), ⟨4, some "key", some "3"⟩, []) ∧
    make_request (some 10) ⟨4, some "key", some "3"⟩ "get" "u" []
        ⟨503, bodyOk⟩ respAuthOk ⟨200, bodyOk⟩ =
      (.error (.pardot .pardot5xxError), ⟨4, some "key", some "3"⟩,
       [.dataReq "get" "u" []]) ∧
    make_request (some 10) ⟨4, some "key", some "3"⟩ "get" "u" []
        ⟨404, bodyOk⟩ respAuthOk ⟨200, bodyOk⟩ =
      (.error (.httpStatus 404), ⟨4, some "key", some "3"⟩,
       [.dataReq "get" "u" []]) ∧
    make_request (some 10) ⟨4, some "key", some "3"⟩ "get" "u" []
        ⟨200, bodyErr15⟩ respAuthOk ⟨200, bodyOk⟩ =
      (.ok bodyErr15, ⟨4, some "key", some "3"⟩, [.dataReq "get" "u" []]) ∧
    make_request (some 10) ⟨4, some "key", some "3"⟩ "get" "u" []
        ⟨200, bodyErr122⟩ respAuthOk ⟨200, bodyOk⟩ =
      (.error (.pardot .pardotUserLimitReached), ⟨4, some "key", some "3"⟩,
       [.dataReq "get" "u" []]) :=
  by
  refine ⟨?_, ?_, ?_, ?_, ?_, ?_, ?_⟩
  · exact (c5_counter_effects (k := "newkey") (c := 15)).1
      (by decide) (by decide) (by decide)
  · exact (c5_counter_effects (k := "newkey") (c := 15)).2.1 (by decide) (by decide)
      (by decide) (by decide) (by decide) (by decide) (by decide)
  · exact (c5_counter_effects (k := "newkey") (c := 15)).2.2.1 (by decide)
  · exact (c5_counter_effects (k := "newkey") (c := 15)).2.2.2.1
      (by decide) (by decide)
  · exact (c5_counter_effects (k := "newkey") (c := 15)).2.2.2.2.1
      (by decide) (by decide) (by decide)
  · exact (c5_counter_effects (k := "newkey") (c := 15)).2.2.2.2.2.1 (by decide)
      (by decide) (by decide) (by decide) (by decide) (by decide)
  · exact (c5_counter_effects (k := "newkey") (c := 15)).2.2.2.2.2.2
      (by decide) (by decide) (by decide) (by decide)

/-- Claim C7 counterexample: a 2xx body carrying embedded error code 122
arriving as the retried response of a code-1 recovery is never checked for
122 — the stale `error_code` is still 1 — so the call does not raise
`PardotUserLimitReached`, the counter IS incremented (from 1 to 3), and
the error surfaces through `_check_error` as a plain `PardotException`
with code 122. -/
theorem c7_counterexample :
    (describe (some 10) ⟨1, some "oldkey", some "3"⟩ "email" []
        ⟨200, bodyErr1⟩ respAuthOk ⟨200, bodyErr122⟩).1 =
      .error (.pardot (.pardotException (some 122))) ∧
    Err.pardot (.pardotException (some 122)) ≠ Err.pardot .pardotUserLimitReached ∧
    (describe (some 10) ⟨1, some "oldkey", some "3"⟩ "email" []
        ⟨200, bodyErr1⟩ respAuthOk ⟨200, bodyErr122⟩).2.1.count = 3 ∧
    (3 : Nat) ≠ 1 :=
  ⟨rfl, by decide, rfl, by decide⟩

/-- Claim C7 (amended): for every first response of a `_make_request`
invocation whose 2xx body carries embedded error code 122, the executor
raises `PardotUserLimitReached` — the same exception class as the local
daily-limit case — without incrementing the counter, and the backoff
wrapper does not retry it (the class is not in its caught tuple); a
code-122 body on the retried request after a code-1 re-login instead
escapes the check, increments the counter, and surfaces as a generic
`PardotException`. -/
theorem c7_first_response_122 {limit : Option Nat} {st : ClientState}
    {method url : String} {params : List (String × String)}
    {resp1 authResp resp2 : Response}
    (hLim : limitAllows limit st.count = true)
    (h1s : resp1.status < 400) (h1e : errTruthy resp1.body = true)
    (h1c : resp1.body.errCode = some 122) :
    make_request limit st method url params resp1 authResp resp2 =
      (.error (.pardot .pardotUserLimitReached), st, [.dataReq method url params]) ∧
    backoffRetries (.pardot .pardotUserLimitReached) = false := by
  have h5 : ¬(500 ≤ resp1.status) := by omega
  have h4 : ¬(400 ≤ resp1.status) := by omega
  exact ⟨by simp [make_request, hLim, h5, h4, h1e, h1c], rfl⟩

/-- Witness for the amended C7. -/
theorem c7_first_response_122_witness :
    make_request (some 10) ⟨2, some "key", some "3"⟩ "get" "u" []
        ⟨200, bodyErr122⟩ respAuthOk ⟨200, bodyOk⟩ =
      (.error (.pardot .pardotUserLimitReached), ⟨2, some "key", some "3"⟩,
       [.dataReq "get" "u" []]) ∧
    backoffRetries (.pardot .pardotUserLimitReached) = false :=
  c7_first_response_122 (by decide) (by decide) (by decide) (by decide)

/-- Claim C8: a login answered 2xx whose body carries a truthy `err`
raises `PardotException` with the embedded code, leaves the state — the
counter included — untouched, and in the constructor case `__init__`
fails with that exception after the single authentication request, before
any data request can be issued. -/
theorem c8_login_embedded_error {limit : Option Nat} {stored : Option Nat}
    {st : ClientState} {authResp : Response} {c : Int}
    (hAs : authResp.status < 400) (hAe : errTruthy authResp.body = true)
    (hAc : authResp.body.errCode = some c)
    (hG : initGuardTrips limit (stored.getD 0) = false) :
    login st authResp = (.error (.pardot (.pardotException (some c))), st) ∧
    clientInit limit stored authResp =
      (.error (.pardot (.pardotException (some c))), [.authReq]) := by
  have h : ¬(400 ≤ authResp.status ∧ authResp.status < 600) := by omega
  have hlog : ∀ s : ClientState,
      login s authResp = (.error (.pardot (.pardotException (some c))), s) := by
    intro s
    simp [login, check_error, h, hAe, hAc]
  refine ⟨hlog st, ?_⟩
  simp [clientInit, hG, hlog]

/-- Witness for C8: the invalid-credentials body with embedded code 15. -/
theorem c8_login_embedded_error_witness :
    login ⟨0, none, none⟩ ⟨200, bodyErr15⟩ =
      (.error (.pardot (.pardotException (some 15))), ⟨0, none, none⟩) ∧
    clientInit (some 5) (some 0) ⟨200, bodyErr15⟩ =
      (.error (.pardot (.pardotException (some 15))), [.authReq]) :=
  c8_login_embedded_error (by decide) (by decide) (by decide) (by decide)

/-- Claim C9 counterexample: a 200 login response with no embedded error
and no `api_key` field updates `api_version` (from "3" to "4") and then
raises `KeyError`, leaving `api_key` at its stale prior value — an outcome
in which one session field is updated and the other is not. -/
theorem c9_counterexample :
    login ⟨0, some "oldkey", some "3"⟩ ⟨200, bodyNoKey⟩ =
      (.error (.keyError "api_key"), ⟨1, some "oldkey", some "4"⟩) ∧
    (some "4" : Option String) ≠ some "3" :=
  ⟨rfl, by decide⟩

/-- Claim C9 (amended): on a successful login — 2xx, error-free body that
contains `api_key` — both session fields are replaced, `api_version`
defaulting to "3" when absent or falsy; on an HTTP-error or embedded-error
outcome both retain their prior values; but on a 2xx error-free body
lacking `api_key` the login raises `KeyError` after updating
`api_version`, leaving `api_key` stale, so wholesale replacement holds
only when the body carries `api_key`. -/
theorem c9_session_replacement {st : ClientState} {r : Response} {b : String} :
    (r.status < 400 → errTruthy r.body = false → r.body.apiKey = some b →
      login st r = (.ok (),
        { count := st.count + 1, apiKey := some b,
          apiVersion := some (versionOrDefault r.body.version) })) ∧
    (400 ≤ r.status → r.status < 600 →
      login st r = (.error (.httpStatus r.status), st)) ∧
    (r.status < 400 → errTruthy r.body = true → (login st r).2 = st) ∧
    (r.status < 400 → errTruthy r.body = false → r.body.apiKey = none →
      login st r = (.error (.keyError "api_key"),
        { count := st.count + 1, apiKey := st.apiKey,
          apiVersion := some (versionOrDefault r.body.version) })) := by
  refine ⟨?_, ?_, ?_, ?_⟩
  · intro hs he hk
    exact login_ok hs he hk
  · intro h4 h6
    simp [login, h4, h6]
  · intro hs he
    have h : ¬(400 ≤ r.status ∧ r.status < 600) := by omega
    rcases hrc : r.body.errCode with _ | c <;> simp [login, check_error, h, he, hrc]
  · intro hs he hk
    have h : ¬(400 ≤ r.status ∧ r.status < 600) := by omega
    simp [login, check_error, h, he, hk]

/-- Witness for the amended C9, one concrete login per outcome shape. -/
theorem c9_session_replacement_witness :
    login ⟨0, some "oldkey", some "3"⟩ respAuthOk =
      (.ok (), ⟨1, some "newkey", some "4"⟩) ∧
    login ⟨0, some "oldkey", some "3"⟩ ⟨401, bodyOk⟩ =
      (.error (.httpStatus 401), ⟨0, some "oldkey", some "3"⟩) ∧
    (login ⟨0, some "oldkey", some "3"⟩ ⟨200, bodyErr15⟩).2 =
      ⟨0, some "oldkey", some "3"⟩ ∧
    login ⟨7, some "oldkey", some "3"⟩ ⟨200, bodyNoKey⟩ =
      (.error (.keyError "api_key"), ⟨8, some "oldkey", some "4"⟩) := by
  refine ⟨?_, ?_, ?_, ?_⟩
  · exact (c9_session_replacement (b := "newkey")).1 (by decide) (by decide) (by decide)
  · exact (c9_session_replacement (b := "newkey")).2.1 (by decide) (by decide)
  · exact (c9_session_replacement (b := "newkey")).2.2.1 (by decide) (by decide)
  · exact (c9_session_replacement (b := "newkey")).2.2.2 (by decide) (by decide) (by decide)

/-- Claim C10 counterexample: a caller-supplied filter named `format`
overrides the default — the transport request of a describe call carries
`format=xml`, not `format=json`. -/
theorem c10_counterexample :
    (describe (some 10) ⟨0, some "key", some "3"⟩ "prospect" [("format", "xml")]
        ⟨200, bodyOk⟩ respAuthOk ⟨200, bodyOk⟩).2.2 =
      [.dataReq "get" (describeUrlFor (some "3") "prospect")
        [("format", "xml"), ("output", "bulk")]] ∧
    dictGet [("format", "xml"), ("output", "bulk")] "format" = some "xml" ∧
    (some "xml" : Option String) ≠ some "json" :=
  ⟨rfl, rfl, by decide⟩

/-- Claim C10 (amended): the query parameters sent by describe and by the
fetch path are the merge of the defaults `format=json`, `output=bulk` with
the caller-supplied filters, the caller's value winning on a name clash:
every caller-supplied filter is always included with its own value, and
`format=json` and `output=bulk` are included whenever the caller does not
supply those keys herself. -/
theorem c10_params_merged {limit : Option Nat} {st : ClientState}
    {endpoint method : String} {kwargs : List (String × String)}
    {resp1 authResp resp2 : Response}
    (hnd : (kwargs.map Prod.fst).Nodup)
    (hLim : limitAllows limit st.count = true) :
    (∀ kv ∈ kwargs, dictGet (mergeKwargs kwargs) kv.1 = some kv.2) ∧
    ("format" ∉ kwargs.map Prod.fst →
      dictGet (mergeKwargs kwargs) "format" = some "json") ∧
    ("output" ∉ kwargs.map Prod.fst →
      dictGet (mergeKwargs kwargs) "output" = some "bulk") ∧
    (describe limit st endpoint kwargs resp1 authResp resp2).2.2.head? =
      some (.dataReq "get" (describeUrlFor st.apiVersion endpoint) (mergeKwargs kwargs)) ∧
    (fetchEndpoint limit st method endpoint kwargs resp1 authResp resp2).2.2.head? =
      some (.dataReq method (fetchUrlFor st.apiVersion endpoint) (mergeKwargs kwargs)) := by
  refine ⟨?_, ?_, ?_, ?_, ?_⟩
  · intro kv hm
    exact dictGet_foldl_mem _ _ _ hnd hm
  · intro hf
    rw [mergeKwargs, dictGet_foldl_not_mem _ _ _ hf]
    rfl
  · intro ho
    rw [mergeKwargs, dictGet_foldl_not_mem _ _ _ ho]
    rfl
  · rw [describe_trace]
    exact make_request_first_event hLim
  · rw [fetchEndpoint_trace]
    exact make_request_first_event hLim

/-- Witness for the amended C10: a clashing `format` filter wins over the
default, a non-clashing filter rides along with both defaults intact, and
the merged dictionary is what the transport request carries. -/
theorem c10_params_merged_witness :
    dictGet (mergeKwargs [("format", "xml"), ("created_after", "2020-01-01")])
      "format" = some "xml" ∧
    dictGet (mergeKwargs [("format", "xml"), ("created_after", "2020-01-01")])
      "created_after" = some "2020-01-01" ∧
    dictGet (mergeKwargs [("created_after", "2020-01-01")]) "format" = some "json" ∧
    dictGet (mergeKwargs [("created_after", "2020-01-01")]) "output" = some "bulk" ∧
    dictGet (mergeKwargs [("created_after", "2020-01-01")]) "created_after" =
      some "2020-01-01" ∧
    (describe (some 10) ⟨0, some "key", some "3"⟩ "prospect"
        [("format", "xml"), ("created_after", "2020-01-01")]
        ⟨200, bodyOk⟩ respAuthOk ⟨200, bodyOk⟩).2.2.head? =
      some (.dataReq "get" (describeUrlFor (some "3") "prospect")
        (mergeKwargs [("format", "xml"), ("created_after", "2020-01-01")])) ∧
    (fetchEndpoint (some 10) ⟨0, some "key", some "3"⟩ "post" "prospect"
        [("format", "xml"), ("created_after", "2020-01-01")]
        ⟨200, bodyOk⟩ respAuthOk ⟨200, bodyOk⟩).2.2.head? =
      some (.dataReq "post" (fetchUrlFor (some "3") "prospect")
        (mergeKwargs [("format", "xml"), ("created_after", "2020-01-01")])) := by
  have h := @c10_params_merged (some 10) ⟨0, some "key", some "3"⟩
    "prospect" "post" [("format", "xml"), ("created_after", "2020-01-01")]
    ⟨200, bodyOk⟩ respAuthOk ⟨200, bodyOk⟩
    (by decide) (by decide)
  have h' := @c10_params_merged (some 10) ⟨0, some "key", some "3"⟩
    "prospect" "post" [("created_after", "2020-01-01")]
    ⟨200, bodyOk⟩ respAuthOk ⟨200, bodyOk⟩
    (by decide) (by decide)
  exact ⟨h.1 ("format", "xml") (by decide),
    h.1 ("created_after", "2020-01-01") (by decide),
    h'.2.1 (by decide), h'.2.2.1 (by decide),
    h'.1 ("created_after", "2020-01-01") (by decide),
    h.2.2.2.1, h.2.2.2.2⟩

end TapPardot
